import Mathlib

/-!
Verification of the challenge-evaluation core of `model.py`: the `Player`
and `Challenge` data model, the ordered policy-check chain `is_supported`,
the per-challenger rate limiter `is_supported_recent`, and the ranking
function `score`.  All definitions are shallow embeddings of the Python
source; Python truthiness of optional integers and strings is made
explicit through small helper functions.
-/

/-- Python truthiness of an optional integer (`if x:`): `None` and `0` are
falsy, every other integer is truthy. -/
def pyTruthyInt : Option Int → Bool
  | none => false
  | some n => n != 0

/-- Python truthiness of an optional string (`if s:`): `None` and the empty
string are falsy. -/
def pyTruthyStr : Option String → Bool
  | none => false
  | some s => s != ""

/-- Python `x or d` for an optional integer `x` and integer default `d`:
returns `x` when truthy, otherwise `d`. -/
def pyOrInt (o : Option Int) (d : Int) : Int :=
  match o with
  | some r => if r != 0 then r else d
  | none => d

/-- Python `s or ""` for an optional string: `None` and `""` give `""`. -/
def pyOrEmpty (o : Option String) : String :=
  match o with
  | some s => s
  | none => ""

/-- Python `a or b` on strings: returns `a` when non-empty, else `b`.
This models the short-circuit `or` chain of `is_supported`. -/
def strOr (a b : String) : String :=
  if a = "" then b else a

/-- Rendering of an optional integer inside a Python f-string:
`None` prints as the literal absence marker `"None"`. -/
def optIntStr : Option Int → String
  | some n => toString n
  | none => "None"

/-- Python `str.strip()`: remove leading and trailing whitespace. -/
def pyStrip (s : String) : String :=
  String.mk (((s.data.dropWhile Char.isWhitespace).reverse.dropWhile
    Char.isWhitespace).reverse)

/-- A policy bound that may be a finite integer or `math.inf`
(configuration maxima may be unbounded). -/
inductive ExtInt where
  | fin (n : Int)
  | inf
deriving DecidableEq

/-- `days_max == math.inf`. -/
def ExtInt.isInf : ExtInt → Bool
  | .inf => true
  | .fin _ => false

/-- `n <= e` for an integer against a possibly-infinite bound. -/
def leExt (n : Int) : ExtInt → Bool
  | .inf => true
  | .fin m => n ≤ m

/-- The policy configuration consumed by `Challenge.is_supported`
(`config.py` is outside the fragment; the fields are exactly those the
source reads, with maxima possibly infinite as the spec states). -/
structure Configuration where
  variants : List String
  time_controls : List String
  max_increment : ExtInt
  min_increment : Int
  max_base : ExtInt
  min_base : Int
  max_days : ExtInt
  min_days : Int
  accept_bot : Bool
  only_bot : Bool
  modes : List String
  block_list : List String
  allow_list : List String
  max_recent_bot_challenges : Option Int

/-- Modelled from the spec: `ExpiringTimer` (`timer.py`, an external
collaborator not in the fragment) — a value that knows whether a fixed
duration after its creation has elapsed.  Only `is_expired` is consumed
by the core, so the timer is embedded as its expiry verdict. -/
structure Timer where
  expired : Bool
deriving DecidableEq

/-- `Timer.is_expired()`. -/
def Timer.is_expired (t : Timer) : Bool := t.expired

/-- `defaultdict[str, List[Timer]]`: a total map with default `[]`. -/
def Tracker : Type := String → List Timer

/-- The update `recent_bot_challenges[name] = [t for t in ... if not
t.is_expired()]`: prune the expired timers stored under one key. -/
def Tracker.pruneAt (tr : Tracker) (name : String) : Tracker :=
  fun n => if n = name then (tr name).filter (fun t => !t.is_expired) else tr n

/-- `Player.__init__` attributes (`is_bot` is derived from `title` at
construction; see `mkPlayer`). -/
structure Player where
  name : String
  title : Option String
  is_bot : Bool
  rating : Option Int
  provisional : Option Bool
  aiLevel : Option Int

/-- `Player.__init__`: `is_bot` is recomputed from `title`, never set
independently. -/
def mkPlayer (name : String) (title : Option String) (rating : Option Int)
    (provisional : Option Bool) (aiLevel : Option Int) : Player :=
  { name := name
    title := title
    is_bot := title == some "BOT"
    rating := rating
    provisional := provisional
    aiLevel := aiLevel }

/-- `Player.__str__`: an AI level takes precedence when truthy; otherwise
title, name and rating are rendered and the result is stripped. -/
def Player.render (p : Player) : String :=
  if pyTruthyInt p.aiLevel then
    "AI level " ++ optIntStr p.aiLevel
  else
    let rating := optIntStr p.rating ++ (if p.provisional.getD false then "?" else "")
    pyStrip (pyOrEmpty p.title ++ " " ++ p.name ++ " (" ++ rating ++ ")")

/-- `Challenge.__init__` attributes. -/
structure Challenge where
  id : String
  rated : Bool
  variant : String
  perf_name : String
  speed : String
  increment : Option Int
  base : Option Int
  days : Option Int
  challenger : Player
  opponent : Player
  from_self : Bool

/-- `Challenge.is_supported_variant`. -/
def Challenge.is_supported_variant (c : Challenge) (cfg : Configuration) : Bool :=
  decide (c.variant ∈ cfg.variants)

/-- `Challenge.is_supported_time_control`: speed gate first, then the
base-and-increment shape, then days-per-turn, else the unlimited case. -/
def Challenge.is_supported_time_control (c : Challenge) (cfg : Configuration) : Bool :=
  if !decide (c.speed ∈ cfg.time_controls) then
    false
  else
    match c.base, c.increment with
    | some b, some i =>
        decide (cfg.min_increment ≤ i) && leExt i cfg.max_increment &&
        decide (cfg.min_base ≤ b) && leExt b cfg.max_base
    | _, _ =>
        match c.days with
        | some d => decide (cfg.min_days ≤ d) && leExt d cfg.max_days
        | none => cfg.max_days.isInf

/-- `Challenge.is_supported_mode`. -/
def Challenge.is_supported_mode (c : Challenge) (cfg : Configuration) : Bool :=
  decide ((if c.rated then "rated" else "casual") ∈ cfg.modes)

/-- `Challenge.is_supported_recent`: prune the expired timers stored under
the challenger's name, then pass unless the challenger is a bot, a limit is
configured, and the remaining count has reached it.  Returns the updated
tracker together with the verdict. -/
def Challenge.is_supported_recent (c : Challenge) (cfg : Configuration)
    (tr : Tracker) : Tracker × Bool :=
  let tr' := tr.pruneAt c.challenger.name
  let ok :=
    !c.challenger.is_bot ||
    (match cfg.max_recent_bot_challenges with
     | none => true
     | some m => decide ((tr' c.challenger.name).length < m))
  (tr', ok)

/-- `Challenge.decline_due_to`. -/
def Challenge.decline_due_to (_c : Challenge) (requirement_met : Bool)
    (decline_reason : String) : String :=
  if requirement_met then "" else decline_reason

/-- `allowed_opponents = list(filter(None, config.allow_list)) or
[self.challenger.name]`. -/
def allowedOpponents (cfg : Configuration) (challengerName : String) : List String :=
  let filtered := cfg.allow_list.filter (fun s => s != "")
  if filtered = [] then [challengerName] else filtered

/-- The pure prefix of the decline-reason `or` chain of `is_supported`:
the seven stateless checks in source order, folded with Python's
short-circuit `or`.  The stateful rate-limit check is appended by
`Challenge.is_supported_body` only when this prefix is empty, exactly as
Python's lazy `or` evaluates it. -/
def Challenge.chainReason (c : Challenge) (cfg : Configuration) : String :=
  let allowed_opponents := allowedOpponents cfg c.challenger.name
  strOr (c.decline_due_to (cfg.accept_bot || !c.challenger.is_bot) "noBot")
  (strOr (c.decline_due_to (!cfg.only_bot || c.challenger.is_bot) "onlyBot")
  (strOr (c.decline_due_to (c.is_supported_time_control cfg) "timeControl")
  (strOr (c.decline_due_to (c.is_supported_variant cfg) "variant")
  (strOr (c.decline_due_to (c.is_supported_mode cfg)
           (if c.rated then "casual" else "rated"))
  (strOr (c.decline_due_to (!decide (c.challenger.name ∈ cfg.block_list)) "generic")
         (c.decline_due_to (decide (c.challenger.name ∈ allowed_opponents)) "generic"))))))

/-- The body of the `try` block of `Challenge.is_supported`: the
self-initiated early accept, then the short-circuit `or` chain of decline
reasons.  The rate-limit check is the only stateful step and is evaluated
only when every earlier check passed, exactly as Python's lazy `or` does. -/
def Challenge.is_supported_body (c : Challenge) (cfg : Configuration)
    (tr : Tracker) : (Bool × String) × Tracker :=
  if c.from_self then
    ((true, ""), tr)
  else
    if c.chainReason cfg = "" then
      let res := c.is_supported_recent cfg tr
      let dr := c.decline_due_to res.2 "later"
      ((dr == "", dr), res.1)
    else
      ((false, c.chainReason cfg), tr)

/-- The `try ... except Exception` wrapper of `Challenge.is_supported`: a
normal body outcome is returned as is; any raised exception is caught and
turned into a decline with reason `"generic"`. -/
def is_supported_run (body : Except Unit ((Bool × String) × Tracker))
    (tr : Tracker) : (Bool × String) × Tracker :=
  match body with
  | .ok r => r
  | .error _ => ((false, "generic"), tr)

/-- `Challenge.is_supported(config, recent_bot_challenges)`: the verdict
pair `(accepted, decline_reason)` together with the tracker state after
the call. -/
def Challenge.is_supported (c : Challenge) (cfg : Configuration)
    (tr : Tracker) : (Bool × String) × Tracker :=
  is_supported_run (Except.ok (c.is_supported_body cfg tr)) tr

/-- `Challenge.score`. -/
def Challenge.score (c : Challenge) : Int :=
  let rated_bonus : Int := if c.rated then 200 else 0
  let challenger_master_title :=
    if !c.challenger.is_bot then c.challenger.title else none
  let titled_bonus : Int := if pyTruthyStr challenger_master_title then 200 else 0
  let challenger_rating_int := pyOrInt c.challenger.rating 0
  challenger_rating_int + rated_bonus + titled_bonus

/-- `Challenge.mode`. -/
def Challenge.mode (c : Challenge) : String :=
  if c.rated then "rated" else "casual"

/-- The `i`-th policy check of the `is_supported` chain (for a
non-self-initiated challenge), paired with its decline reason, in the
order of the source: the verdict of the chain is decided by the first
entry whose check is false.  Indices at or beyond 8 are a vacuous pass. -/
def Challenge.nthCheck (c : Challenge) (cfg : Configuration) (tr : Tracker) :
    Nat → Bool × String
  | 0 => (cfg.accept_bot || !c.challenger.is_bot, "noBot")
  | 1 => (!cfg.only_bot || c.challenger.is_bot, "onlyBot")
  | 2 => (c.is_supported_time_control cfg, "timeControl")
  | 3 => (c.is_supported_variant cfg, "variant")
  | 4 => (c.is_supported_mode cfg, if c.rated then "casual" else "rated")
  | 5 => (!decide (c.challenger.name ∈ cfg.block_list), "generic")
  | 6 => (decide (c.challenger.name ∈ allowedOpponents cfg c.challenger.name), "generic")
  | 7 => ((c.is_supported_recent cfg tr).2, "later")
  | _ + 8 => (true, "")

/-- Evaluation reaches the rate-limit check (and hence prunes the tracker)
exactly when the challenge is not self-initiated and every earlier check
passes. -/
def Challenge.reachesRecent (c : Challenge) (cfg : Configuration) : Bool :=
  !c.from_self &&
  (cfg.accept_bot || !c.challenger.is_bot) &&
  (!cfg.only_bot || c.challenger.is_bot) &&
  c.is_supported_time_control cfg &&
  c.is_supported_variant cfg &&
  c.is_supported_mode cfg &&
  !decide (c.challenger.name ∈ cfg.block_list) &&
  decide (c.challenger.name ∈ allowedOpponents cfg c.challenger.name)

/-! ### Sample data used to instantiate the theorems on concrete inputs -/

/-- A sample human challenger with a master title. -/
def carol : Player :=
  { name := "carol", title := some "GM", is_bot := false, rating := some 1800,
    provisional := none, aiLevel := none }

/-- A sample opponent profile. -/
def oppo : Player :=
  { name := "opp", title := none, is_bot := false, rating := none,
    provisional := none, aiLevel := none }

/-- A sample rated standard blitz challenge from `carol`. -/
def sampleChallenge : Challenge :=
  { id := "c0", rated := true, variant := "standard", perf_name := "Blitz",
    speed := "blitz", increment := some 3, base := some 180, days := none,
    challenger := carol, opponent := oppo, from_self := false }

/-- A sample permissive policy configuration. -/
def sampleConfig : Configuration :=
  { variants := ["standard"], time_controls := ["blitz"],
    max_increment := .fin 5, min_increment := 0,
    max_base := .fin 300, min_base := 60,
    max_days := .inf, min_days := 1,
    accept_bot := true, only_bot := false,
    modes := ["rated", "casual"], block_list := [], allow_list := [],
    max_recent_bot_challenges := some 3 }

/-- A policy whose speed set and variant set are both empty, so that both
the time-control check and the variant check fail. -/
def hostileTC : Configuration :=
  { sampleConfig with time_controls := [], variants := [] }

/-- A tracker holding one expired timer for `carol`. -/
def trExpired : Tracker :=
  fun n => if n = "carol" then [{ expired := true }] else []

/-- The sample challenge marked as created by the caller itself. -/
def selfChallenge : Challenge :=
  { sampleChallenge with from_self := true }

/-- A tracker holding four live timers for `carol`. -/
def trLive : Tracker :=
  fun n => if n = "carol" then
    [{ expired := false }, { expired := false },
     { expired := false }, { expired := false }] else []

/-! ### Helper lemmas about the short-circuit chain -/

theorem strOr_eq_empty_iff {a b : String} : strOr a b = "" ↔ a = "" ∧ b = "" := by
  unfold strOr
  split <;> simp_all

theorem decline_due_to_eq_empty_iff (c : Challenge) (m : Bool) {r : String}
    (hr : r ≠ "") : c.decline_due_to m r = "" ↔ m = true := by
  cases m <;> simp [Challenge.decline_due_to, hr]

theorem decline_due_to_ne (c : Challenge) (m : Bool) {r x : String}
    (hr : r ≠ x) (hx : x ≠ "") : c.decline_due_to m r ≠ x := by
  unfold Challenge.decline_due_to
  split
  · exact fun h => hx h.symm
  · exact hr

theorem strOr_ne {a b x : String} (ha : a ≠ x) (hb : b ≠ x) : strOr a b ≠ x := by
  unfold strOr
  split <;> assumption

/-! ### Claims -/

/-- C1: for every challenge whose `from_self` flag is true, `is_supported`
returns `(true, "")` for every policy configuration and every tracker
state, the tracker being left unchanged — all policy checks are
bypassed. -/
theorem C1_self_initiated_accepts (c : Challenge) (cfg : Configuration)
    (tr : Tracker) (h : c.from_self = true) :
    c.is_supported cfg tr = ((true, ""), tr) := by
  simp [Challenge.is_supported, is_supported_run, Challenge.is_supported_body, h]

/-- C1 witness: a self-initiated challenge against a deliberately hostile
policy (bot challenger with `accept_bot` false, challenger on the block
list, absent from a non-empty allow list, empty variant/speed/mode sets,
zero rate limit) is still accepted with empty reason. -/
theorem C1_self_initiated_accepts_witness :
    Challenge.is_supported
      { id := "c1", rated := true, variant := "standard", perf_name := "Blitz",
        speed := "blitz", increment := some 3, base := some 180, days := none,
        challenger := { name := "me", title := some "BOT", is_bot := true,
                        rating := some 1500, provisional := none, aiLevel := none },
        opponent := { name := "opp", title := none, is_bot := false,
                      rating := none, provisional := none, aiLevel := none },
        from_self := true }
      { variants := [], time_controls := [], max_increment := .fin 0,
        min_increment := 0, max_base := .fin 0, min_base := 0,
        max_days := .fin 0, min_days := 0, accept_bot := false,
        only_bot := true, modes := [], block_list := ["me"],
        allow_list := ["other"], max_recent_bot_challenges := some 0 }
      (fun _ => []) = ((true, ""), fun _ => []) :=
  C1_self_initiated_accepts _ _ _ rfl

/-- C6: evaluation is total — the `except` arm of `is_supported` maps any
raised exception to the verdict `(false, "generic")` instead of
propagating it, and `is_supported` is exactly the `try` body run through
this handler. -/
theorem C6_exception_caught_generic (c : Challenge) (cfg : Configuration)
    (tr : Tracker) (e : Unit) :
    (is_supported_run (Except.error e) tr).1 = (false, "generic") ∧
    (is_supported_run (Except.error e) tr).2 = tr ∧
    c.is_supported cfg tr = is_supported_run (Except.ok (c.is_supported_body cfg tr)) tr :=
  ⟨rfl, rfl, rfl⟩

/-- C7: on every path of `is_supported`, including the exception-fallback
path, the verdict is accept exactly when the returned reason is the empty
string. -/
theorem C7_reason_empty_iff_accepted (c : Challenge) (cfg : Configuration)
    (tr : Tracker) :
    ((c.is_supported cfg tr).1.1 = true ↔ (c.is_supported cfg tr).1.2 = "") ∧
    (∀ e : Unit, ((is_supported_run (Except.error e) tr).1.1 = true ↔
      (is_supported_run (Except.error e) tr).1.2 = "")) := by
  refine ⟨?_, fun e => by simp [is_supported_run]⟩
  have hrw : c.is_supported cfg tr = c.is_supported_body cfg tr := rfl
  rw [hrw]
  unfold Challenge.is_supported_body
  split
  · simp
  · dsimp only
    split
    · simp
    · rename_i h7
      simp [h7]

/-- C3: the time-control check gates on the speed category first, then
applies inclusive bounds to the base-and-increment shape, then to the
days-per-turn shape, and accepts the unlimited shape only under an
infinite `max_days` bound. -/
theorem C3_time_control_cases (c : Challenge) (cfg : Configuration) :
    (c.speed ∉ cfg.time_controls → c.is_supported_time_control cfg = false) ∧
    (∀ b i : Int, c.speed ∈ cfg.time_controls → c.base = some b →
      c.increment = some i →
      (c.is_supported_time_control cfg = true ↔
        (cfg.min_increment ≤ i ∧ leExt i cfg.max_increment = true ∧
         cfg.min_base ≤ b ∧ leExt b cfg.max_base = true))) ∧
    (∀ d : Int, c.speed ∈ cfg.time_controls → (c.base = none ∨ c.increment = none) →
      c.days = some d →
      (c.is_supported_time_control cfg = true ↔
        (cfg.min_days ≤ d ∧ leExt d cfg.max_days = true))) ∧
    (c.speed ∈ cfg.time_controls → (c.base = none ∨ c.increment = none) →
      c.days = none →
      (c.is_supported_time_control cfg = true ↔ cfg.max_days = ExtInt.inf)) := by
  refine ⟨?_, ?_, ?_, ?_⟩
  · intro h
    simp [Challenge.is_supported_time_control, h]
  · intro b i hs hb hi
    simp [Challenge.is_supported_time_control, hs, hb, hi, and_assoc]
  · intro d hs hbi hd
    rcases hbi with hb | hi
    · cases hci : c.increment <;>
        simp [Challenge.is_supported_time_control, hs, hb, hci, hd]
    · cases hcb : c.base <;>
        simp [Challenge.is_supported_time_control, hs, hi, hcb, hd]
  · intro hs hbi hd
    rcases hbi with hb | hi
    · cases hci : c.increment <;> cases hmd : cfg.max_days <;>
        simp [Challenge.is_supported_time_control, hs, hb, hci, hd, hmd,
          ExtInt.isInf]
    · cases hcb : c.base <;> cases hmd : cfg.max_days <;>
        simp [Challenge.is_supported_time_control, hs, hi, hcb, hd, hmd,
          ExtInt.isInf]

/-- C3 witness: the sample blitz challenge (base 180, increment 3) is
accepted by the sample bounds, and a speed outside the policy set is
rejected. -/
theorem C3_time_control_cases_witness :
    sampleChallenge.is_supported_time_control sampleConfig = true ∧
    sampleChallenge.is_supported_time_control hostileTC = false :=
  ⟨((C3_time_control_cases sampleChallenge sampleConfig).2.1 180 3
      (by decide) rfl rfl).mpr (by decide),
   (C3_time_control_cases sampleChallenge hostileTC).1 (by decide)⟩

/-- C10: when exactly one of base and increment is present and days is
absent, the check falls through to the unlimited branch and accepts iff
`max_days` is infinite, ignoring the one present field. -/
theorem C10_lone_field_is_unlimited (c : Challenge) (cfg : Configuration)
    (hs : c.speed ∈ cfg.time_controls) (hd : c.days = none)
    (h : (c.base = none ∧ ∃ i, c.increment = some i) ∨
         ((∃ b, c.base = some b) ∧ c.increment = none)) :
    c.is_supported_time_control cfg = true ↔ cfg.max_days = ExtInt.inf := by
  rcases h with ⟨hb, i, hi⟩ | ⟨⟨b, hb⟩, hi⟩ <;>
    cases hmd : cfg.max_days <;>
    simp [Challenge.is_supported_time_control, hs, hb, hi, hd, hmd,
      ExtInt.isInf]

/-- C10 witness: a blitz challenge with only a base (no increment, no
days) is accepted under an infinite `max_days` bound. -/
theorem C10_lone_field_is_unlimited_witness :
    Challenge.is_supported_time_control
      { sampleChallenge with base := some 180, increment := none, days := none }
      sampleConfig = true :=
  (C10_lone_field_is_unlimited _ sampleConfig (by decide) rfl
    (Or.inr ⟨⟨180, rfl⟩, rfl⟩)).mpr rfl

/-- C8: the score is the challenger's rating (0 when absent) plus 200 when
rated plus 200 for a non-bot challenger with a non-empty title; it is
monotone in the rating, the rated bonus is exactly 200, and the non-bot
title bonus is exactly 200. -/
theorem C8_score_formula (c : Challenge) :
    (c.score = c.challenger.rating.getD 0 + (if c.rated then 200 else 0) +
      (if c.challenger.is_bot = false ∧ c.challenger.title.getD "" ≠ "" then 200
       else 0)) ∧
    (∀ r1 r2 : Int, r1 ≤ r2 →
      Challenge.score { c with challenger := { c.challenger with rating := some r1 } } ≤
      Challenge.score { c with challenger := { c.challenger with rating := some r2 } }) ∧
    (Challenge.score { c with rated := true } =
      Challenge.score { c with rated := false } + 200) ∧
    (∀ t : String, t ≠ "" →
      Challenge.score { c with challenger :=
        { c.challenger with title := some t, is_bot := false } } =
      Challenge.score { c with challenger :=
        { c.challenger with title := some t, is_bot := true } } + 200) := by
  refine ⟨?_, ?_, ?_, ?_⟩
  · unfold Challenge.score
    cases hb : c.challenger.is_bot <;> cases ht : c.challenger.title <;>
      cases hr : c.challenger.rating <;>
      simp [pyOrInt, pyTruthyStr, hb, ht, hr, bne_iff_ne] <;> omega
  · intro r1 r2 h12
    unfold Challenge.score
    simp only [pyOrInt, bne_iff_ne]
    split_ifs <;> omega
  · unfold Challenge.score
    dsimp only
    cases hr : c.challenger.rating <;>
      simp only [pyOrInt, pyTruthyStr, bne_iff_ne, hr] <;>
      split_ifs <;> first | contradiction | omega
  · intro t ht
    unfold Challenge.score
    simp only [pyOrInt, pyTruthyStr, bne_iff_ne, Bool.not_true, Bool.not_false]
    split_ifs <;> simp_all

/-- C8 witness: raising the sample challenger's rating from 1500 to 1600
does not decrease the score, and flipping only the bot flag on a "GM"
title changes the score by exactly 200. -/
theorem C8_score_formula_witness :
    Challenge.score { sampleChallenge with challenger :=
      { sampleChallenge.challenger with rating := some 1500 } } ≤
    Challenge.score { sampleChallenge with challenger :=
      { sampleChallenge.challenger with rating := some 1600 } } ∧
    Challenge.score { sampleChallenge with challenger :=
      { sampleChallenge.challenger with title := some "GM", is_bot := false } } =
    Challenge.score { sampleChallenge with challenger :=
      { sampleChallenge.challenger with title := some "GM", is_bot := true } } + 200 :=
  ⟨(C8_score_formula sampleChallenge).2.1 1500 1600 (by decide),
   (C8_score_formula sampleChallenge).2.2.2 "GM" (by decide)⟩

/-- The 7-check chain never produces the reason reserved for the
rate-limit check. -/
theorem chainReason_ne_later (c : Challenge) (cfg : Configuration) :
    c.chainReason cfg ≠ "later" := by
  unfold Challenge.chainReason
  refine strOr_ne (decline_due_to_ne _ _ (by simp) (by simp))
    (strOr_ne (decline_due_to_ne _ _ (by simp) (by simp))
    (strOr_ne (decline_due_to_ne _ _ (by simp) (by simp))
    (strOr_ne (decline_due_to_ne _ _ (by simp) (by simp))
    (strOr_ne (decline_due_to_ne _ _ ?_ (by simp))
    (strOr_ne (decline_due_to_ne _ _ (by simp) (by simp))
              (decline_due_to_ne _ _ (by simp) (by simp)))))))
  split <;> simp

/-- The 7-check chain is empty exactly when each of its checks passes. -/
theorem chainReason_eq_empty_iff (c : Challenge) (cfg : Configuration) :
    c.chainReason cfg = "" ↔
      ((cfg.accept_bot || !c.challenger.is_bot) = true ∧
       (!cfg.only_bot || c.challenger.is_bot) = true ∧
       c.is_supported_time_control cfg = true ∧
       c.is_supported_variant cfg = true ∧
       c.is_supported_mode cfg = true ∧
       (!decide (c.challenger.name ∈ cfg.block_list)) = true ∧
       decide (c.challenger.name ∈ allowedOpponents cfg c.challenger.name) = true) := by
  cases hcr : c.rated <;>
    simp [Challenge.chainReason, hcr, strOr_eq_empty_iff,
      decline_due_to_eq_empty_iff, and_assoc]

/-- C4: the rate-limit check first prunes the expired timers stored under
the challenger's name, then passes iff the challenger is not a bot, no
limit is configured, or the remaining count is strictly below the limit;
consequently a human challenger always passes it and `is_supported` never
returns the reason `"later"` for a human challenger. -/
theorem C4_recent_check (c : Challenge) (cfg : Configuration) (tr : Tracker) :
    ((c.is_supported_recent cfg tr).1 c.challenger.name =
      (tr c.challenger.name).filter (fun t => !t.is_expired)) ∧
    ((c.is_supported_recent cfg tr).2 = true ↔
      (c.challenger.is_bot = false ∨ cfg.max_recent_bot_challenges = none ∨
        ∃ m, cfg.max_recent_bot_challenges = some m ∧
          (((tr c.challenger.name).filter (fun t => !t.is_expired)).length : Int) < m)) ∧
    (c.challenger.is_bot = false →
      ((c.is_supported_recent cfg tr).2 = true ∧
        (c.is_supported cfg tr).1.2 ≠ "later")) := by
  refine ⟨?_, ?_, ?_⟩
  · simp [Challenge.is_supported_recent, Tracker.pruneAt]
  · cases hb : c.challenger.is_bot <;>
      cases hm : cfg.max_recent_bot_challenges <;>
      simp [Challenge.is_supported_recent, Tracker.pruneAt, hb, hm]
  · intro hb
    have hok : (c.is_supported_recent cfg tr).2 = true := by
      simp [Challenge.is_supported_recent, hb]
    refine ⟨hok, ?_⟩
    have hrw : (c.is_supported cfg tr).1.2 = (c.is_supported_body cfg tr).1.2 := rfl
    rw [hrw]
    unfold Challenge.is_supported_body
    split
    · simp
    · split
      · simp [Challenge.decline_due_to, hok]
      · simpa using chainReason_ne_later c cfg

/-- C4 witness: `carol` is human, so with four live timers recorded
against a limit of three the check still passes and the verdict reason is
not `"later"`. -/
theorem C4_recent_check_witness :
    (sampleChallenge.is_supported_recent sampleConfig trLive).2 = true ∧
    (sampleChallenge.is_supported sampleConfig trLive).1.2 ≠ "later" :=
  (C4_recent_check sampleChallenge sampleConfig trLive).2.2 rfl

/-- C2: first failing check wins — for a non-self-initiated challenge, if
every check strictly before position `i` of the §4.2 order passes and the
check at position `i` fails, `is_supported` declines with exactly the
reason of check `i`, whatever the later checks would have said. -/
theorem C2_first_failing_check_wins (c : Challenge) (cfg : Configuration)
    (tr : Tracker) (i : Nat) (hi : i < 8) (hself : c.from_self = false)
    (hpass : ∀ j, j < i → (c.nthCheck cfg tr j).1 = true)
    (hfail : (c.nthCheck cfg tr i).1 = false) :
    (c.is_supported cfg tr).1 = (false, (c.nthCheck cfg tr i).2) := by
  have hbody : (c.is_supported cfg tr).1 = (c.is_supported_body cfg tr).1 := rfl
  rw [hbody]
  interval_cases i
  · simp only [Challenge.nthCheck] at hfail
    simp [Challenge.is_supported_body, hself, Challenge.chainReason,
      Challenge.decline_due_to, strOr, Challenge.nthCheck, hfail]
  · have h0 := hpass 0 (by omega)
    simp only [Challenge.nthCheck] at h0 hfail
    simp [Challenge.is_supported_body, hself, Challenge.chainReason,
      Challenge.decline_due_to, strOr, Challenge.nthCheck, h0, hfail]
  · have h0 := hpass 0 (by omega)
    have h1 := hpass 1 (by omega)
    simp only [Challenge.nthCheck] at h0 h1 hfail
    simp [Challenge.is_supported_body, hself, Challenge.chainReason,
      Challenge.decline_due_to, strOr, Challenge.nthCheck, h0, h1, hfail]
  · have h0 := hpass 0 (by omega)
    have h1 := hpass 1 (by omega)
    have h2 := hpass 2 (by omega)
    simp only [Challenge.nthCheck] at h0 h1 h2 hfail
    simp [Challenge.is_supported_body, hself, Challenge.chainReason,
      Challenge.decline_due_to, strOr, Challenge.nthCheck, h0, h1, h2, hfail]
  · have h0 := hpass 0 (by omega)
    have h1 := hpass 1 (by omega)
    have h2 := hpass 2 (by omega)
    have h3 := hpass 3 (by omega)
    simp only [Challenge.nthCheck] at h0 h1 h2 h3 hfail
    cases hcr : c.rated <;>
      simp [Challenge.is_supported_body, hself, Challenge.chainReason,
        Challenge.decline_due_to, strOr, Challenge.nthCheck, h0, h1, h2, h3,
        hcr, hfail]
  · have h0 := hpass 0 (by omega)
    have h1 := hpass 1 (by omega)
    have h2 := hpass 2 (by omega)
    have h3 := hpass 3 (by omega)
    have h4 := hpass 4 (by omega)
    simp only [Challenge.nthCheck] at h0 h1 h2 h3 h4 hfail
    simp [Challenge.is_supported_body, hself, Challenge.chainReason,
      Challenge.decline_due_to, strOr, Challenge.nthCheck, h0, h1, h2, h3, h4,
      hfail]
  · have h0 := hpass 0 (by omega)
    have h1 := hpass 1 (by omega)
    have h2 := hpass 2 (by omega)
    have h3 := hpass 3 (by omega)
    have h4 := hpass 4 (by omega)
    have h5 := hpass 5 (by omega)
    simp only [Challenge.nthCheck] at h0 h1 h2 h3 h4 h5 hfail
    simp [Challenge.is_supported_body, hself, Challenge.chainReason,
      Challenge.decline_due_to, strOr, Challenge.nthCheck, h0, h1, h2, h3, h4,
      h5, hfail]
  · have h0 := hpass 0 (by omega)
    have h1 := hpass 1 (by omega)
    have h2 := hpass 2 (by omega)
    have h3 := hpass 3 (by omega)
    have h4 := hpass 4 (by omega)
    have h5 := hpass 5 (by omega)
    have h6 := hpass 6 (by omega)
    simp only [Challenge.nthCheck] at h0 h1 h2 h3 h4 h5 h6 hfail
    simp [Challenge.is_supported_body, hself, Challenge.chainReason,
      Challenge.decline_due_to, strOr, Challenge.nthCheck, h0, h1, h2, h3, h4,
      h5, h6, hfail]

/-- C2 witness: against a policy whose speed set and variant set are both
empty, the sample challenge fails the time-control check (position 2) and
the variant check (position 3); the verdict reason is `"timeControl"`, the
earlier of the two. -/
theorem C2_first_failing_check_wins_witness :
    (sampleChallenge.is_supported hostileTC (fun _ => [])).1 =
      (false, "timeControl") :=
  C2_first_failing_check_wins sampleChallenge hostileTC (fun _ => []) 2
    (by omega) rfl (by decide) (by decide)

/-- C5 (amended): the tracker entry for the challenger's name is pruned of
expired timers exactly when evaluation reaches the rate-limit check, that
is, when the challenge is not self-initiated and all seven earlier checks
pass; on every other call the tracker is returned unchanged. -/
theorem C5_prune_iff_reaches_recent (c : Challenge) (cfg : Configuration)
    (tr : Tracker) :
    (c.is_supported cfg tr).2 =
      if c.reachesRecent cfg then tr.pruneAt c.challenger.name else tr := by
  have hrw : (c.is_supported cfg tr).2 = (c.is_supported_body cfg tr).2 := rfl
  rw [hrw]
  unfold Challenge.is_supported_body
  by_cases hs : c.from_self = true
  · simp [hs, Challenge.reachesRecent]
  · have hs' : c.from_self = false := by
      cases hx : c.from_self
      · rfl
      · exact absurd hx hs
    by_cases hcr : c.chainReason cfg = ""
    · obtain ⟨h1, h2, h3, h4, h5, h6, h7⟩ := (chainReason_eq_empty_iff c cfg).mp hcr
      simp [hs', hcr, Challenge.reachesRecent, h1, h2, h3, h4, h5, h6, h7,
        Challenge.is_supported_recent]
    · cases hx : c.reachesRecent cfg
      · simp [hs', hcr, hx]
      · exfalso
        unfold Challenge.reachesRecent at hx
        simp only [Bool.and_eq_true, and_assoc] at hx
        exact hcr ((chainReason_eq_empty_iff c cfg).mpr
          ⟨hx.2.1, hx.2.2.1, hx.2.2.2.1, hx.2.2.2.2.1, hx.2.2.2.2.2.1,
           hx.2.2.2.2.2.2.1, hx.2.2.2.2.2.2.2⟩)

/-- C5 counterexample: a self-initiated challenge returns without touching
the tracker, so an expired timer stored under the challenger's name
survives the call — pruning does not happen on every `is_supported`
call. -/
theorem C5_counterexample :
    (selfChallenge.is_supported sampleConfig trExpired).2 "carol" =
      [{ expired := true }] ∧
    Timer.is_expired { expired := true } = true := by
  constructor
  · rfl
  · rfl

/-- C9 (amended): a player whose AI level is present and nonzero renders as
the AI-level form, which takes precedence over title, name and rating; a
player whose AI level is absent — or present with value 0, which Python
truthiness treats like absence — renders as title, name and
parenthesized rating (with a question mark when provisional), stripped of
surrounding whitespace. -/
theorem C9_render_rule (p : Player) :
    (∀ n : Int, p.aiLevel = some n → n ≠ 0 →
      p.render = "AI level " ++ toString n) ∧
    (p.aiLevel = none ∨ p.aiLevel = some 0 →
      p.render = pyStrip (pyOrEmpty p.title ++ " " ++ p.name ++ " (" ++
        (optIntStr p.rating ++ (if p.provisional.getD false then "?" else "")) ++
        ")")) := by
  constructor
  · intro n hn hn0
    simp [Player.render, pyTruthyInt, hn, hn0, optIntStr, bne_iff_ne]
  · rintro (h | h) <;> simp [Player.render, pyTruthyInt, h]

/-- C9 witness: a pure engine opponent at AI level 3 renders as
`"AI level 3"`, and `carol` (no AI level) renders as her title, name and
rating. -/
theorem C9_render_rule_witness :
    Player.render
      { name := "stock", title := none, is_bot := false,
        rating := none, provisional := none, aiLevel := some 3 } =
      "AI level " ++ toString (3 : Int) ∧
    Player.render carol = pyStrip (pyOrEmpty carol.title ++ " " ++ carol.name ++
      " (" ++ (optIntStr carol.rating ++
        (if carol.provisional.getD false then "?" else "")) ++ ")") :=
  ⟨(C9_render_rule _).1 3 rfl (by decide),
   (C9_render_rule carol).2 (Or.inl rfl)⟩

/-- C9 counterexample: a player whose AI level is present with value 0 is
not rendered as `"AI level 0"` — Python's `if self.aiLevel:` treats 0 as
falsy, so the name-and-rating form is used instead. -/
theorem C9_counterexample :
    ({ name := "x", title := none, is_bot := false, rating := some 1500,
       provisional := none, aiLevel := some 0 } : Player).aiLevel = some 0 ∧
    Player.render
      { name := "x", title := none, is_bot := false,
        rating := some 1500, provisional := none, aiLevel := some 0 } ≠
      "AI level 0" :=
  ⟨rfl, by decide⟩
